import Mathlib

/-!
Shallow embedding of `pytorch_lightning/trainer/progress.py` and
`pytorch_lightning/overrides/fairscale.py`.

Python integers are modelled as `Int`; a dataclass field holding either an
integer or the `None` sentinel is modelled as `Option Int` (`none` = the
Python `None` sentinel marking a disabled counter).  Code that can raise an
exception is modelled in `Except String`.
-/

/-- The four counter fields of a `Tracker` dataclass
(`ready`, `started`, `processed`, `completed`), each an optional integer:
`none` models the Python `None` sentinel for a disabled counter. -/
structure Tracker where
  ready : Option Int
  started : Option Int
  processed : Option Int
  completed : Option Int
deriving DecidableEq, Repr

/-- The default-constructed `Tracker()`: every field defaults to `0`. -/
def Tracker.default : Tracker :=
  { ready := some 0, started := some 0, processed := some 0, completed := some 0 }

/-- Names of the four dataclass fields of `Tracker`. -/
inductive TrackerField
  | ready
  | started
  | processed
  | completed
deriving DecidableEq, Repr

/-- The Python attribute name of a `TrackerField`. -/
def TrackerField.pyname : TrackerField → String
  | .ready => "ready"
  | .started => "started"
  | .processed => "processed"
  | .completed => "completed"

/-- Attribute read `getattr(t, f)` for the four dataclass fields. -/
def Tracker.get (t : Tracker) : TrackerField → Option Int
  | .ready => t.ready
  | .started => t.started
  | .processed => t.processed
  | .completed => t.completed

/-- Raw field overwrite (the effect of `super().__setattr__(key, value)`). -/
def Tracker.update (t : Tracker) (f : TrackerField) (v : Option Int) : Tracker :=
  match f with
  | .ready => { t with ready := v }
  | .started => { t with started := v }
  | .processed => { t with processed := v }
  | .completed => { t with completed := v }

/-- `Tracker.__setattr__`: `if getattr(self, key, 0) is None: raise
AttributeError(...)`, else perform the write.  On a constructed `Tracker`
the four fields always exist, so `getattr(self, key, 0)` is just the current
field value.  An exception means no state change (the guard runs before the
write). -/
def Tracker.setattr (t : Tracker) (f : TrackerField) (v : Option Int) :
    Except String Tracker :=
  if t.get f = none then
    Except.error ("The " ++ f.pyname ++ " attribute is meant to be unused")
  else
    Except.ok (t.update f v)

/-- `Tracker.reset`: each field that `is not None` is set to `0`;
`None` fields are left untouched. -/
def Tracker.reset (t : Tracker) : Tracker :=
  { ready := if t.ready = none then t.ready else some 0
    started := if t.started = none then t.started else some 0
    processed := if t.processed = none then t.processed else some 0
    completed := if t.completed = none then t.completed else some 0 }

/-- `Progress`: a `total` and a `current` `Tracker`. -/
structure Progress where
  total : Tracker
  current : Tracker
deriving DecidableEq, Repr

/-- The default-constructed `Progress()`. -/
def Progress.default : Progress :=
  { total := Tracker.default, current := Tracker.default }

/-- `Progress.increment_ready`: if `total.ready` or `current.ready` is `None`,
return without change; otherwise add `1` to both. -/
def Progress.increment_ready (p : Progress) : Progress :=
  if p.total.ready = none ∨ p.current.ready = none then p
  else
    { p with
      total := { p.total with ready := p.total.ready.map (fun x => x + 1) }
      current := { p.current with ready := p.current.ready.map (fun x => x + 1) } }

/-- `Progress.increment_started`. -/
def Progress.increment_started (p : Progress) : Progress :=
  if p.total.started = none ∨ p.current.started = none then p
  else
    { p with
      total := { p.total with started := p.total.started.map (fun x => x + 1) }
      current := { p.current with started := p.current.started.map (fun x => x + 1) } }

/-- `Progress.increment_processed`. -/
def Progress.increment_processed (p : Progress) : Progress :=
  if p.total.processed = none ∨ p.current.processed = none then p
  else
    { p with
      total := { p.total with processed := p.total.processed.map (fun x => x + 1) }
      current := { p.current with processed := p.current.processed.map (fun x => x + 1) } }

/-- `Progress.increment_completed`. -/
def Progress.increment_completed (p : Progress) : Progress :=
  if p.total.completed = none ∨ p.current.completed = none then p
  else
    { p with
      total := { p.total with completed := p.total.completed.map (fun x => x + 1) }
      current := { p.current with completed := p.current.completed.map (fun x => x + 1) } }

/-- Dispatch to `increment_ready` / `increment_started` / `increment_processed`
/ `increment_completed` by field name. -/
def Progress.increment (p : Progress) : TrackerField → Progress
  | .ready => p.increment_ready
  | .started => p.increment_started
  | .processed => p.increment_processed
  | .completed => p.increment_completed

/-- `Progress.from_defaults(**kwargs)`: both `total` and `current` are
`Tracker(**kwargs)`, passing the four field values explicitly. -/
def Progress.from_defaults (r s pr c : Option Int) : Progress :=
  { total := { ready := r, started := s, processed := pr, completed := c }
    current := { ready := r, started := s, processed := pr, completed := c } }

/-- `OptimizationProgress`: `optimizer`, `scheduler` and `zero_grad`
`Progress` records. -/
structure OptimizationProgress where
  optimizer : Progress
  scheduler : Progress
  zero_grad : Progress
deriving DecidableEq, Repr

/-- The default `OptimizationProgress()`: `optimizer` and `zero_grad` are
`Progress.from_defaults(processed=None)`, `scheduler` is
`Progress.from_defaults(started=None, processed=None)`. -/
def OptimizationProgress.default : OptimizationProgress :=
  { optimizer := Progress.from_defaults (some 0) (some 0) none (some 0)
    scheduler := Progress.from_defaults (some 0) none none (some 0)
    zero_grad := Progress.from_defaults (some 0) (some 0) none (some 0) }

/-- The property `OptimizationProgress.optimizer_steps`: its body is the bare
attribute read `return self.optimizer.total.completed`.  Reading an existing
attribute never raises, so in the error monad the result is always `ok`,
carrying whatever the field holds (the `None` sentinel when `completed` is
disabled). -/
def OptimizationProgress.optimizer_steps (o : OptimizationProgress) :
    Except String (Option Int) :=
  Except.ok o.optimizer.total.completed

/-- The property `OptimizationProgress.scheduler_steps`:
`return self.scheduler.total.completed`, likewise never raising. -/
def OptimizationProgress.scheduler_steps (o : OptimizationProgress) :
    Except String (Option Int) :=
  Except.ok o.scheduler.total.completed

/-- The body of the loops in `BatchLoopProgress.reset_on_batch` and
`TrainingLoopProgress.reset_on_batch`: reset `opt.optimizer.current`,
`opt.scheduler.current` and `opt.zero_grad.current` of one slot. -/
def OptimizationProgress.reset_current (o : OptimizationProgress) :
    OptimizationProgress :=
  { optimizer := { o.optimizer with current := o.optimizer.current.reset }
    scheduler := { o.scheduler with current := o.scheduler.current.reset }
    zero_grad := { o.zero_grad with current := o.zero_grad.current.reset } }

/-- Replace the element at index `i` by its image under `g`; out-of-range
indices leave the list unchanged.  Models an in-place mutation of one tuple
slot of `optimizations`. -/
def updateNth (g : α → α) (i : Nat) (l : List α) : List α :=
  match l, i with
  | [], _ => []
  | a :: as, 0 => g a :: as
  | a :: as, n + 1 => a :: updateNth g n as

/-- `BatchLoopProgress`: a `batch` `Progress`, the active `optimizer_idx`,
`num_optimizers`, and the `optimizations` tuple. -/
structure BatchLoopProgress where
  batch : Progress
  optimizer_idx : Option Int
  num_optimizers : Nat
  optimizations : List OptimizationProgress
deriving DecidableEq, Repr

/-- `BatchLoopProgress.__post_init__`: `optimizations` is built as
`tuple(deepcopy(OptimizationProgress()) for _ in range(self.num_optimizers))`,
i.e. `num_optimizers` independent copies of the default
`OptimizationProgress`. -/
def BatchLoopProgress.mkNew (batch : Progress) (optimizer_idx : Option Int)
    (num_optimizers : Nat) : BatchLoopProgress :=
  { batch := batch
    optimizer_idx := optimizer_idx
    num_optimizers := num_optimizers
    optimizations := List.replicate num_optimizers OptimizationProgress.default }

/-- The default `BatchLoopProgress()` (defaults `Progress()`, `int()` = 0,
`num_optimizers = 1`). -/
def BatchLoopProgress.default : BatchLoopProgress :=
  BatchLoopProgress.mkNew Progress.default (some 0) 1

/-- In-place mutation of slot `i` of the `optimizations` tuple by `g`
(e.g. `progress.optimizations[i].optimizer.increment_ready()`). -/
def BatchLoopProgress.mutateSlot (b : BatchLoopProgress) (i : Nat)
    (g : OptimizationProgress → OptimizationProgress) : BatchLoopProgress :=
  { b with optimizations := updateNth g i b.optimizations }

/-- `BatchLoopProgress.reset_on_batch`: reset the `current` trackers of
`optimizer`, `scheduler`, `zero_grad` of every slot, then reset
`self.batch.current`. -/
def BatchLoopProgress.reset_on_batch (b : BatchLoopProgress) : BatchLoopProgress :=
  { b with
    optimizations := b.optimizations.map OptimizationProgress.reset_current
    batch := { b.batch with current := b.batch.current.reset } }

/-- `LoopProgress`: an `epoch` and a `batch` `Progress` (the validation-loop
variant). -/
structure LoopProgress where
  epoch : Progress
  batch : Progress
deriving DecidableEq, Repr

/-- The default `LoopProgress()`. -/
def LoopProgress.default : LoopProgress :=
  { epoch := Progress.default, batch := Progress.default }

/-- `LoopProgress.reset_on_epoch`: reset `batch.current` and
`epoch.current`. -/
def LoopProgress.reset_on_epoch (l : LoopProgress) : LoopProgress :=
  { l with
    batch := { l.batch with current := l.batch.current.reset }
    epoch := { l.epoch with current := l.epoch.current.reset } }

/-- `LoopProgress.increment_epoch_completed`: `epoch.increment_completed()`
then `reset_on_epoch()`. -/
def LoopProgress.increment_epoch_completed (l : LoopProgress) : LoopProgress :=
  LoopProgress.reset_on_epoch { l with epoch := l.epoch.increment_completed }

/-- `TrainingLoopProgress(LoopProgress)`: inherits `epoch` and `batch` from
`LoopProgress` and adds `batch_loop`. -/
structure TrainingLoopProgress where
  epoch : Progress
  batch : Progress
  batch_loop : BatchLoopProgress
deriving DecidableEq, Repr

/-- The default `TrainingLoopProgress()`. -/
def TrainingLoopProgress.default : TrainingLoopProgress :=
  { epoch := Progress.default
    batch := Progress.default
    batch_loop := BatchLoopProgress.default }

/-- `TrainingLoopProgress.reset_on_epoch` (override): only
`self.batch_loop.reset_on_batch()`; deliberately does not reset
`epoch.current`. -/
def TrainingLoopProgress.reset_on_epoch (t : TrainingLoopProgress) :
    TrainingLoopProgress :=
  { t with batch_loop := t.batch_loop.reset_on_batch }

/-- `TrainingLoopProgress.increment_epoch_completed`:
`epoch.increment_completed()` then the overridden `reset_on_epoch()`. -/
def TrainingLoopProgress.increment_epoch_completed (t : TrainingLoopProgress) :
    TrainingLoopProgress :=
  TrainingLoopProgress.reset_on_epoch { t with epoch := t.epoch.increment_completed }

/-- `TrainingLoopProgress.reset_on_batch`: resets the `current` trackers of
`optimizer`, `scheduler`, `zero_grad` of every optimization slot.  The
`if self.batch_loop.optimizations is not None` guard is always true since
`__post_init__` always builds a tuple.  Note: unlike
`BatchLoopProgress.reset_on_batch`, no `batch.current` is touched. -/
def TrainingLoopProgress.reset_on_batch (t : TrainingLoopProgress) :
    TrainingLoopProgress :=
  { t with
    batch_loop :=
      { t.batch_loop with
        optimizations := t.batch_loop.optimizations.map OptimizationProgress.reset_current } }

/-- `FitLoopProgress`: a `train` `TrainingLoopProgress` and a `val`
`LoopProgress`. -/
structure FitLoopProgress where
  train : TrainingLoopProgress
  val : LoopProgress
deriving DecidableEq, Repr

/-- The default `FitLoopProgress()`. -/
def FitLoopProgress.default : FitLoopProgress :=
  { train := TrainingLoopProgress.default, val := LoopProgress.default }

/-- A model object for `overrides/fairscale.py`: either a plain (unwrapped)
model, or a model wrapped by one of the known distributed adapter layers
(`ShardedDataParallel`, `FullyShardedDataParallel`, `FlattenParamsWrapper`).
A wrapper's `.module` attribute is its single inner model. -/
inductive ModelObj
  | plain (uid : Nat)
  | sharded (inner : ModelObj)
  | fullSharded (inner : ModelObj)
  | flatten (inner : ModelObj)
deriving DecidableEq, Repr

/-- Modelled from the spec: `unwrap_lightning_module` lives in
`pytorch_lightning/overrides/base.py`, which is not part of this excerpt.
The spec (section 4.4) attributes to the unwrapper only the conditional
unwrapping steps performed by the two functions below and states that a
plain model is returned unchanged, so the delegated call is modelled as the
identity on this data model. -/
def unwrap_lightning_module (model : ModelObj) : ModelObj :=
  model

/-- `unwrap_lightning_module_sharded`: if the model is a
`ShardedDataParallel` instance, take `model.module`; then delegate to
`unwrap_lightning_module`. -/
def unwrap_lightning_module_sharded (wrapped_model : ModelObj) : ModelObj :=
  unwrap_lightning_module
    (match wrapped_model with
     | ModelObj.sharded inner => inner
     | m => m)

/-- `unwrap_lightning_module_full_sharded`: if the model is a
`FullyShardedDataParallel` instance, take `model.module`; then, if the result
is a `FlattenParamsWrapper`, take `model.module` once more; then delegate to
`unwrap_lightning_module`. -/
def unwrap_lightning_module_full_sharded (wrapped_model : ModelObj) : ModelObj :=
  unwrap_lightning_module
    (match
       (match wrapped_model with
        | ModelObj.fullSharded inner => inner
        | m => m) with
     | ModelObj.flatten inner => inner
     | m => m)

/-- A Python attribute value on a `Tracker` instance: an integer or the
`None` sentinel. -/
inductive PyVal
  | int (n : Int)
  | pynone
deriving DecidableEq, Repr

/-- A `Tracker` instance viewed through Python object semantics: its
`__dict__`, a list of attribute bindings where the first binding for a name
is the current one. -/
structure PyTracker where
  attrs : List (String × PyVal)
deriving DecidableEq, Repr

/-- `getattr(t, key, dflt)`: the current binding of `key`, or `dflt` when
the attribute does not exist on the instance. -/
def PyTracker.getattr (t : PyTracker) (key : String) (dflt : PyVal) : PyVal :=
  match t.attrs.lookup key with
  | some v => v
  | none => dflt

/-- `Tracker.__setattr__` over Python object semantics:
`if getattr(self, key, 0) is None: raise AttributeError(...)`, else
`super().__setattr__(key, value)` binds the attribute.  A missing attribute
reads as the default `0`, which is not `None`, so the write goes through. -/
def PyTracker.setattr (t : PyTracker) (key : String) (value : PyVal) :
    Except String PyTracker :=
  if t.getattr key (PyVal.int 0) = PyVal.pynone then
    Except.error ("The " ++ key ++ " attribute is meant to be unused")
  else
    Except.ok { attrs := (key, value) :: t.attrs }

/-- The addressable `Progress` components of a `FitLoopProgress`. -/
inductive ProgSlot
  | trainEpoch
  | trainBatch
  | batchLoopBatch
  | optOptimizer (i : Nat)
  | optScheduler (i : Nat)
  | optZeroGrad (i : Nat)
  | valEpoch
  | valBatch
deriving DecidableEq, Repr

/-- One public operation on a `FitLoopProgress` state: an `increment_*` call
on any nested `Progress`, or one of the epoch/batch reset entry points. -/
inductive FitOp
  | incr (slot : ProgSlot) (f : TrackerField)
  | trainIncrementEpochCompleted
  | trainResetOnEpoch
  | trainResetOnBatch
  | batchLoopResetOnBatch
  | valIncrementEpochCompleted
  | valResetOnEpoch
deriving DecidableEq, Repr

/-- Apply one public operation to a `FitLoopProgress` state. -/
def FitLoopProgress.applyOp (s : FitLoopProgress) : FitOp → FitLoopProgress
  | .incr .trainEpoch f =>
      { s with train := { s.train with epoch := s.train.epoch.increment f } }
  | .incr .trainBatch f =>
      { s with train := { s.train with batch := s.train.batch.increment f } }
  | .incr .batchLoopBatch f =>
      { s with train := { s.train with batch_loop :=
          { s.train.batch_loop with batch := s.train.batch_loop.batch.increment f } } }
  | .incr (.optOptimizer i) f =>
      { s with train := { s.train with batch_loop := (s.train.batch_loop.mutateSlot i
          (fun o => { o with optimizer := o.optimizer.increment f })) } }
  | .incr (.optScheduler i) f =>
      { s with train := { s.train with batch_loop := (s.train.batch_loop.mutateSlot i
          (fun o => { o with scheduler := o.scheduler.increment f })) } }
  | .incr (.optZeroGrad i) f =>
      { s with train := { s.train with batch_loop := (s.train.batch_loop.mutateSlot i
          (fun o => { o with zero_grad := o.zero_grad.increment f })) } }
  | .incr .valEpoch f =>
      { s with val := { s.val with epoch := s.val.epoch.increment f } }
  | .incr .valBatch f =>
      { s with val := { s.val with batch := s.val.batch.increment f } }
  | .trainIncrementEpochCompleted =>
      { s with train := s.train.increment_epoch_completed }
  | .trainResetOnEpoch =>
      { s with train := s.train.reset_on_epoch }
  | .trainResetOnBatch =>
      { s with train := s.train.reset_on_batch }
  | .batchLoopResetOnBatch =>
      { s with train := { s.train with batch_loop := s.train.batch_loop.reset_on_batch } }
  | .valIncrementEpochCompleted =>
      { s with val := s.val.increment_epoch_completed }
  | .valResetOnEpoch =>
      { s with val := s.val.reset_on_epoch }

/-- Run a sequence of public operations from a starting state. -/
def FitLoopProgress.run (s : FitLoopProgress) (ops : List FitOp) : FitLoopProgress :=
  ops.foldl FitLoopProgress.applyOp s

/-- Pointwise order on an optional counter: a disabled counter stays
disabled, an enabled counter may only grow. -/
def optLE (a b : Option Int) : Prop :=
  match a, b with
  | none, none => True
  | some x, some y => x ≤ y
  | _, _ => False

/-- Field-wise `optLE` on all four counters of a `Tracker`. -/
def Tracker.le (t u : Tracker) : Prop :=
  optLE t.ready u.ready ∧ optLE t.started u.started ∧
    optLE t.processed u.processed ∧ optLE t.completed u.completed

/-- `Tracker.le` on the `total` trackers of all three progresses of one
optimization slot. -/
def opTotalsLE (o o2 : OptimizationProgress) : Prop :=
  Tracker.le o.optimizer.total o2.optimizer.total ∧
    Tracker.le o.scheduler.total o2.scheduler.total ∧
    Tracker.le o.zero_grad.total o2.zero_grad.total

/-- `Tracker.le` on every `total` tracker reachable from a
`FitLoopProgress`. -/
def totalsLE (s s2 : FitLoopProgress) : Prop :=
  Tracker.le s.train.epoch.total s2.train.epoch.total ∧
    Tracker.le s.train.batch.total s2.train.batch.total ∧
    Tracker.le s.train.batch_loop.batch.total s2.train.batch_loop.batch.total ∧
    List.Forall₂ opTotalsLE s.train.batch_loop.optimizations s2.train.batch_loop.optimizations ∧
    Tracker.le s.val.epoch.total s2.val.epoch.total ∧
    Tracker.le s.val.batch.total s2.val.batch.total

/-- The tuple of every `total` tracker reachable from a `FitLoopProgress`;
two states with equal `totals` have identical total counters. -/
def FitLoopProgress.totals (s : FitLoopProgress) :
    Tracker × Tracker × Tracker × List (Tracker × Tracker × Tracker) × Tracker × Tracker :=
  (s.train.epoch.total, s.train.batch.total, s.train.batch_loop.batch.total,
    s.train.batch_loop.optimizations.map
      (fun o => (o.optimizer.total, o.scheduler.total, o.zero_grad.total)),
    s.val.epoch.total, s.val.batch.total)

/-- What one pass of the reset loops does to an optimization slot: all three
`total` trackers are untouched and all three `current` trackers are reset. -/
def slotResetSpec (o o2 : OptimizationProgress) : Prop :=
  o2.optimizer.total = o.optimizer.total ∧
    o2.optimizer.current = o.optimizer.current.reset ∧
    o2.scheduler.total = o.scheduler.total ∧
    o2.scheduler.current = o.scheduler.current.reset ∧
    o2.zero_grad.total = o.zero_grad.total ∧
    o2.zero_grad.current = o.zero_grad.current.reset

/-- An enabled increment bumps the named field by one on both trackers and
leaves every other field of both trackers unchanged. -/
theorem Progress.increment_enabled (p : Progress) (f : TrackerField) (a b : Int)
    (ha : p.total.get f = some a) (hb : p.current.get f = some b) :
    (p.increment f).total.get f = some (a + 1) ∧
      (p.increment f).current.get f = some (b + 1) ∧
      ∀ g, g ≠ f → (p.increment f).total.get g = p.total.get g ∧
        (p.increment f).current.get g = p.current.get g := by
  cases f with
  | ready =>
      simp only [Tracker.get] at ha hb
      simp only [Progress.increment, Progress.increment_ready, ha, hb]
      refine ⟨by simp [Tracker.get, ha], by simp [Tracker.get, hb], ?_⟩
      intro g hg
      cases g <;> simp_all [Tracker.get]
  | started =>
      simp only [Tracker.get] at ha hb
      simp only [Progress.increment, Progress.increment_started, ha, hb]
      refine ⟨by simp [Tracker.get, ha], by simp [Tracker.get, hb], ?_⟩
      intro g hg
      cases g <;> simp_all [Tracker.get]
  | processed =>
      simp only [Tracker.get] at ha hb
      simp only [Progress.increment, Progress.increment_processed, ha, hb]
      refine ⟨by simp [Tracker.get, ha], by simp [Tracker.get, hb], ?_⟩
      intro g hg
      cases g <;> simp_all [Tracker.get]
  | completed =>
      simp only [Tracker.get] at ha hb
      simp only [Progress.increment, Progress.increment_completed, ha, hb]
      refine ⟨by simp [Tracker.get, ha], by simp [Tracker.get, hb], ?_⟩
      intro g hg
      cases g <;> simp_all [Tracker.get]

/-- A disabled increment is a no-op on the whole `Progress`. -/
theorem Progress.increment_disabled (p : Progress) (f : TrackerField)
    (h : p.total.get f = none ∨ p.current.get f = none) :
    p.increment f = p := by
  rcases h with h | h <;> cases f <;>
    simp_all [Progress.increment, Progress.increment_ready, Progress.increment_started,
      Progress.increment_processed, Progress.increment_completed, Tracker.get]

/-- Iterating an enabled increment `n` times adds `n` to both trackers. -/
theorem Progress.increment_iterate (f : TrackerField) (n : Nat) :
    ∀ (p : Progress) (a b : Int), p.total.get f = some a → p.current.get f = some b →
      ((fun q => Progress.increment q f)^[n] p).total.get f = some (a + n) ∧
        ((fun q => Progress.increment q f)^[n] p).current.get f = some (b + n) := by
  induction n with
  | zero =>
      intro p a b ha hb
      simpa using ⟨ha, hb⟩
  | succ n ih =>
      intro p a b ha hb
      rw [Function.iterate_succ_apply]
      obtain ⟨h1, h2, -⟩ := Progress.increment_enabled p f a b ha hb
      obtain ⟨H1, H2⟩ := ih (p.increment f) (a + 1) (b + 1) h1 h2
      constructor
      · rw [H1]; congr 1; push_cast; ring
      · rw [H2]; congr 1; push_cast; ring

/-- `optLE` is reflexive. -/
theorem optLE_refl (a : Option Int) : optLE a a := by
  cases a <;> simp [optLE]

/-- `optLE` is transitive. -/
theorem optLE_trans {a b c : Option Int} (h1 : optLE a b) (h2 : optLE b c) :
    optLE a c := by
  cases a <;> cases b <;> cases c <;> simp_all [optLE]
  omega

/-- Adding one to an optional counter respects `optLE`. -/
theorem optLE_map_succ (a : Option Int) : optLE a (a.map (fun x => x + 1)) := by
  cases a <;> simp [optLE]

/-- `Tracker.le` is reflexive. -/
theorem tracker_le_refl (t : Tracker) : Tracker.le t t :=
  ⟨optLE_refl _, optLE_refl _, optLE_refl _, optLE_refl _⟩

/-- `Tracker.le` is transitive. -/
theorem tracker_le_trans {t u w : Tracker} (h1 : Tracker.le t u)
    (h2 : Tracker.le u w) : Tracker.le t w :=
  ⟨optLE_trans h1.1 h2.1, optLE_trans h1.2.1 h2.2.1,
    optLE_trans h1.2.2.1 h2.2.2.1, optLE_trans h1.2.2.2 h2.2.2.2⟩

/-- `opTotalsLE` is reflexive. -/
theorem opTotalsLE_refl (o : OptimizationProgress) : opTotalsLE o o :=
  ⟨tracker_le_refl _, tracker_le_refl _, tracker_le_refl _⟩

/-- `opTotalsLE` is transitive. -/
theorem opTotalsLE_trans {o o2 o3 : OptimizationProgress}
    (h1 : opTotalsLE o o2) (h2 : opTotalsLE o2 o3) : opTotalsLE o o3 :=
  ⟨tracker_le_trans h1.1 h2.1, tracker_le_trans h1.2.1 h2.2.1,
    tracker_le_trans h1.2.2 h2.2.2⟩

/-- `List.Forall₂` of a reflexive relation holds on the diagonal. -/
theorem forall2_refl_of {α : Type} {R : α → α → Prop} (h : ∀ a, R a a) :
    ∀ l : List α, List.Forall₂ R l l
  | [] => List.Forall₂.nil
  | a :: as => List.Forall₂.cons (h a) (forall2_refl_of h as)

/-- `List.Forall₂` composes along a transitive relation. -/
theorem forall2_trans_of {α : Type} (R : α → α → Prop)
    (htrans : ∀ a b c, R a b → R b c → R a c) :
    ∀ {l1 l2 l3 : List α}, List.Forall₂ R l1 l2 → List.Forall₂ R l2 l3 →
      List.Forall₂ R l1 l3 := by
  intro l1 l2 l3 h12
  induction h12 generalizing l3 with
  | nil =>
      intro h23
      cases h23
      exact List.Forall₂.nil
  | cons hab htl ih =>
      intro h23
      cases h23 with
      | cons hbc h23tl => exact List.Forall₂.cons (htrans _ _ _ hab hbc) (ih h23tl)

/-- Mapping `g` over a list is `Forall₂`-related to the list whenever every
element is related to its image. -/
theorem forall2_map_self {α : Type} {R : α → α → Prop} (g : α → α)
    (h : ∀ a, R a (g a)) : ∀ l : List α, List.Forall₂ R l (l.map g)
  | [] => List.Forall₂.nil
  | a :: as => List.Forall₂.cons (h a) (forall2_map_self g h as)

/-- `updateNth` on the empty list. -/
theorem updateNth_nil {α : Type} (g : α → α) (i : Nat) :
    updateNth g i ([] : List α) = [] := by
  cases i <;> rfl

/-- Updating one slot is `Forall₂`-related to the original list whenever the
relation is reflexive and relates every element to its image. -/
theorem forall2_updateNth {α : Type} {R : α → α → Prop} (hrefl : ∀ a, R a a)
    (g : α → α) (hg : ∀ a, R a (g a)) :
    ∀ (i : Nat) (l : List α), List.Forall₂ R l (updateNth g i l) := by
  intro i l
  induction l generalizing i with
  | nil => rw [updateNth_nil]; exact List.Forall₂.nil
  | cons a as ih =>
      cases i with
      | zero => exact List.Forall₂.cons (hg a) (forall2_refl_of hrefl as)
      | succ n => exact List.Forall₂.cons (hrefl a) (ih n)

/-- `updateNth` preserves length. -/
theorem updateNth_length {α : Type} (g : α → α) :
    ∀ (i : Nat) (l : List α), (updateNth g i l).length = l.length := by
  intro i l
  induction l generalizing i with
  | nil => rw [updateNth_nil]
  | cons a as ih =>
      cases i with
      | zero => rfl
      | succ n => exact congrArg Nat.succ (ih n)

/-- `updateNth` leaves every other index unchanged. -/
theorem updateNth_getD_ne {α : Type} (g : α → α) :
    ∀ (i j : Nat) (l : List α) (d : α), j ≠ i →
      (updateNth g i l).getD j d = l.getD j d := by
  intro i j l
  induction l generalizing i j with
  | nil => intro d h; rw [updateNth_nil]
  | cons a as ih =>
      intro d h
      cases i with
      | zero =>
          cases j with
          | zero => exact absurd rfl h
          | succ m => rfl
      | succ n =>
          cases j with
          | zero => rfl
          | succ m => exact ih n m d (fun hh => h (by rw [hh]))

/-- Every optimization-slot reset loop body satisfies `slotResetSpec`. -/
theorem slotResetSpec_reset_current (o : OptimizationProgress) :
    slotResetSpec o o.reset_current :=
  ⟨rfl, rfl, rfl, rfl, rfl, rfl⟩

/-- The totals of an optimization slot are untouched by the reset loop
body. -/
theorem opTotalsLE_reset_current (o : OptimizationProgress) :
    opTotalsLE o o.reset_current :=
  ⟨tracker_le_refl _, tracker_le_refl _, tracker_le_refl _⟩

/-- An increment never decreases the `total` tracker. -/
theorem increment_total_le (p : Progress) (f : TrackerField) :
    Tracker.le p.total (p.increment f).total := by
  cases f with
  | ready =>
      by_cases h : p.total.ready = none ∨ p.current.ready = none
      · simp only [Progress.increment, Progress.increment_ready, if_pos h]
        exact tracker_le_refl _
      · simp only [Progress.increment, Progress.increment_ready, if_neg h]
        exact ⟨optLE_map_succ _, optLE_refl _, optLE_refl _, optLE_refl _⟩
  | started =>
      by_cases h : p.total.started = none ∨ p.current.started = none
      · simp only [Progress.increment, Progress.increment_started, if_pos h]
        exact tracker_le_refl _
      · simp only [Progress.increment, Progress.increment_started, if_neg h]
        exact ⟨optLE_refl _, optLE_map_succ _, optLE_refl _, optLE_refl _⟩
  | processed =>
      by_cases h : p.total.processed = none ∨ p.current.processed = none
      · simp only [Progress.increment, Progress.increment_processed, if_pos h]
        exact tracker_le_refl _
      · simp only [Progress.increment, Progress.increment_processed, if_neg h]
        exact ⟨optLE_refl _, optLE_refl _, optLE_map_succ _, optLE_refl _⟩
  | completed =>
      by_cases h : p.total.completed = none ∨ p.current.completed = none
      · simp only [Progress.increment, Progress.increment_completed, if_pos h]
        exact tracker_le_refl _
      · simp only [Progress.increment, Progress.increment_completed, if_neg h]
        exact ⟨optLE_refl _, optLE_refl _, optLE_refl _, optLE_map_succ _⟩

/-- `totalsLE` is reflexive. -/
theorem totalsLE_refl (s : FitLoopProgress) : totalsLE s s :=
  ⟨tracker_le_refl _, tracker_le_refl _, tracker_le_refl _,
    forall2_refl_of opTotalsLE_refl _, tracker_le_refl _, tracker_le_refl _⟩

/-- `totalsLE` is transitive. -/
theorem totalsLE_trans {s s2 s3 : FitLoopProgress} (h1 : totalsLE s s2)
    (h2 : totalsLE s2 s3) : totalsLE s s3 :=
  ⟨tracker_le_trans h1.1 h2.1, tracker_le_trans h1.2.1 h2.2.1,
    tracker_le_trans h1.2.2.1 h2.2.2.1,
    forall2_trans_of opTotalsLE (fun _ _ _ hx hy => opTotalsLE_trans hx hy)
      h1.2.2.2.1 h2.2.2.2.1,
    tracker_le_trans h1.2.2.2.2.1 h2.2.2.2.2.1,
    tracker_le_trans h1.2.2.2.2.2 h2.2.2.2.2.2⟩

/-- Every single public operation only grows the `total` trackers. -/
theorem applyOp_totalsLE (s : FitLoopProgress) (op : FitOp) :
    totalsLE s (s.applyOp op) := by
  cases op with
  | incr slot f =>
      cases slot with
      | trainEpoch =>
          exact ⟨increment_total_le _ _, tracker_le_refl _, tracker_le_refl _,
            forall2_refl_of opTotalsLE_refl _, tracker_le_refl _, tracker_le_refl _⟩
      | trainBatch =>
          exact ⟨tracker_le_refl _, increment_total_le _ _, tracker_le_refl _,
            forall2_refl_of opTotalsLE_refl _, tracker_le_refl _, tracker_le_refl _⟩
      | batchLoopBatch =>
          exact ⟨tracker_le_refl _, tracker_le_refl _, increment_total_le _ _,
            forall2_refl_of opTotalsLE_refl _, tracker_le_refl _, tracker_le_refl _⟩
      | optOptimizer i =>
          exact ⟨tracker_le_refl _, tracker_le_refl _, tracker_le_refl _,
            forall2_updateNth opTotalsLE_refl
              (fun o => { o with optimizer := o.optimizer.increment f })
              (fun o => ⟨increment_total_le o.optimizer f, tracker_le_refl _,
                tracker_le_refl _⟩) i s.train.batch_loop.optimizations,
            tracker_le_refl _, tracker_le_refl _⟩
      | optScheduler i =>
          exact ⟨tracker_le_refl _, tracker_le_refl _, tracker_le_refl _,
            forall2_updateNth opTotalsLE_refl
              (fun o => { o with scheduler := o.scheduler.increment f })
              (fun o => ⟨tracker_le_refl _, increment_total_le o.scheduler f,
                tracker_le_refl _⟩) i s.train.batch_loop.optimizations,
            tracker_le_refl _, tracker_le_refl _⟩
      | optZeroGrad i =>
          exact ⟨tracker_le_refl _, tracker_le_refl _, tracker_le_refl _,
            forall2_updateNth opTotalsLE_refl
              (fun o => { o with zero_grad := o.zero_grad.increment f })
              (fun o => ⟨tracker_le_refl _, tracker_le_refl _,
                increment_total_le o.zero_grad f⟩) i s.train.batch_loop.optimizations,
            tracker_le_refl _, tracker_le_refl _⟩
      | valEpoch =>
          exact ⟨tracker_le_refl _, tracker_le_refl _, tracker_le_refl _,
            forall2_refl_of opTotalsLE_refl _, increment_total_le _ _, tracker_le_refl _⟩
      | valBatch =>
          exact ⟨tracker_le_refl _, tracker_le_refl _, tracker_le_refl _,
            forall2_refl_of opTotalsLE_refl _, tracker_le_refl _, increment_total_le _ _⟩
  | trainIncrementEpochCompleted =>
      exact ⟨increment_total_le _ TrackerField.completed, tracker_le_refl _,
        tracker_le_refl _, forall2_map_self _ opTotalsLE_reset_current _,
        tracker_le_refl _, tracker_le_refl _⟩
  | trainResetOnEpoch =>
      exact ⟨tracker_le_refl _, tracker_le_refl _, tracker_le_refl _,
        forall2_map_self _ opTotalsLE_reset_current _, tracker_le_refl _,
        tracker_le_refl _⟩
  | trainResetOnBatch =>
      exact ⟨tracker_le_refl _, tracker_le_refl _, tracker_le_refl _,
        forall2_map_self _ opTotalsLE_reset_current _, tracker_le_refl _,
        tracker_le_refl _⟩
  | batchLoopResetOnBatch =>
      exact ⟨tracker_le_refl _, tracker_le_refl _, tracker_le_refl _,
        forall2_map_self _ opTotalsLE_reset_current _, tracker_le_refl _,
        tracker_le_refl _⟩
  | valIncrementEpochCompleted =>
      exact ⟨tracker_le_refl _, tracker_le_refl _, tracker_le_refl _,
        forall2_refl_of opTotalsLE_refl _, increment_total_le _ TrackerField.completed,
        tracker_le_refl _⟩
  | valResetOnEpoch =>
      exact ⟨tracker_le_refl _, tracker_le_refl _, tracker_le_refl _,
        forall2_refl_of opTotalsLE_refl _, tracker_le_refl _, tracker_le_refl _⟩

/-- C1: for every `Progress` and field, an increment on a field enabled on
both `total` and `current` adds exactly 1 to each and changes no other field;
`n` increments on a default-constructed `Progress` yield `total.F =
current.F = n`; an increment on a field disabled on either tracker is a
silent no-op on the whole `Progress` regardless of call count. -/
theorem progress_increment_correct (p : Progress) (f : TrackerField) :
    (∀ a b : Int, p.total.get f = some a → p.current.get f = some b →
      (p.increment f).total.get f = some (a + 1) ∧
        (p.increment f).current.get f = some (b + 1) ∧
        ∀ g, g ≠ f → (p.increment f).total.get g = p.total.get g ∧
          (p.increment f).current.get g = p.current.get g) ∧
    ((p.total.get f = none ∨ p.current.get f = none) →
      ∀ n : Nat, (fun q => Progress.increment q f)^[n] p = p) ∧
    (∀ n : Nat,
      ((fun q => Progress.increment q f)^[n] Progress.default).total.get f =
        some (n : Int) ∧
      ((fun q => Progress.increment q f)^[n] Progress.default).current.get f =
        some (n : Int)) := by
  refine ⟨fun a b ha hb => Progress.increment_enabled p f a b ha hb, ?_, ?_⟩
  · intro h n
    exact Function.iterate_fixed (Progress.increment_disabled p f h) n
  · intro n
    have h := Progress.increment_iterate f n Progress.default 0 0
      (by cases f <;> rfl) (by cases f <;> rfl)
    simpa using h

/-- Witness for C1 at a concrete input: incrementing `ready` on the default
`Progress` yields 1 on both trackers, and an increment on a disabled field is
a no-op. -/
theorem progress_increment_correct_witness :
    ((Progress.default.increment TrackerField.ready).total.get TrackerField.ready =
      some 1) ∧
    (fun q => Progress.increment q TrackerField.processed)^[5]
      (Progress.from_defaults (some 0) (some 0) none (some 0)) =
      Progress.from_defaults (some 0) (some 0) none (some 0) := by
  constructor
  · have h :=
      (progress_increment_correct Progress.default TrackerField.ready).1 0 0 rfl rfl
    simpa using h.1
  · exact (progress_increment_correct
      (Progress.from_defaults (some 0) (some 0) none (some 0))
      TrackerField.processed).2.1 (Or.inl rfl) 5

/-- C2: writing any value to a `Tracker` field that was disabled at
construction fails with the "attribute is meant to be unused" error (and the
error is raised before any mutation), while writing to a field enabled at
construction succeeds and overwrites it. -/
theorem tracker_setattr_guard (r s pr c v : Option Int) (f : TrackerField) :
    ((Tracker.mk r s pr c).get f = none →
      (Tracker.mk r s pr c).setattr f v =
        Except.error ("The " ++ f.pyname ++ " attribute is meant to be unused")) ∧
    ((Tracker.mk r s pr c).get f ≠ none →
      (Tracker.mk r s pr c).setattr f v =
        Except.ok ((Tracker.mk r s pr c).update f v) ∧
      ((Tracker.mk r s pr c).update f v).get f = v) := by
  constructor
  · intro h
    simp [Tracker.setattr, h]
  · intro h
    refine ⟨by simp [Tracker.setattr, h], ?_⟩
    cases f <;> simp [Tracker.update, Tracker.get]

/-- Witness for C2 at a concrete input: on `Tracker(ready=3, completed=None)`
the write to `completed` errors and the write to `ready` overwrites. -/
theorem tracker_setattr_guard_witness :
    (∃ e, (Tracker.mk (some 3) (some 0) (some 0) none).setattr
      TrackerField.completed (some 7) = Except.error e) ∧
    (Tracker.mk (some 3) (some 0) (some 0) none).setattr
      TrackerField.ready (some 7) =
      Except.ok (Tracker.mk (some 7) (some 0) (some 0) none) := by
  constructor
  · exact ⟨_, (tracker_setattr_guard (some 3) (some 0) (some 0) none (some 7)
      TrackerField.completed).1 rfl⟩
  · exact ((tracker_setattr_guard (some 3) (some 0) (some 0) none (some 7)
      TrackerField.ready).2 (by simp [Tracker.get])).1

/-- C3: `reset` sets every enabled field to 0 and leaves every disabled field
disabled; in particular `Tracker(ready=1, started=2, completed=None).reset()`
equals `Tracker(ready=0, started=0, completed=None)`. -/
theorem tracker_reset_correct (t : Tracker) (f : TrackerField) :
    (t.get f = none → t.reset.get f = none) ∧
    (∀ a : Int, t.get f = some a → t.reset.get f = some 0) ∧
    (Tracker.mk (some 1) (some 2) (some 0) none).reset =
      Tracker.mk (some 0) (some 0) (some 0) none := by
  refine ⟨?_, ?_, by rfl⟩
  · intro h
    cases f <;> simp_all [Tracker.reset, Tracker.get]
  · intro a h
    cases f <;> simp_all [Tracker.reset, Tracker.get]

/-- Witness for C3 at a concrete input: resetting
`Tracker(ready=5, started=None, completed=2)` keeps `started` disabled and
zeroes `ready`. -/
theorem tracker_reset_correct_witness :
    (Tracker.mk (some 5) none (some 0) (some 2)).reset.get TrackerField.started =
      none ∧
    (Tracker.mk (some 5) none (some 0) (some 2)).reset.get TrackerField.ready =
      some 0 :=
  ⟨(tracker_reset_correct (Tracker.mk (some 5) none (some 0) (some 2))
      TrackerField.started).1 rfl,
    (tracker_reset_correct (Tracker.mk (some 5) none (some 0) (some 2))
      TrackerField.ready).2.1 5 rfl⟩

/-- Counterexample to C4: on an `OptimizationProgress` whose
`optimizer.total.completed` is disabled, `optimizer_steps` does not fail; it
evaluates without error and yields the `None` sentinel. -/
theorem optimizer_steps_disabled_no_error :
    (OptimizationProgress.mk (Progress.from_defaults (some 0) (some 0) none none)
        (Progress.from_defaults (some 0) none none (some 0))
        (Progress.from_defaults (some 0) (some 0) none (some 0))).optimizer.total.completed =
      none ∧
    (OptimizationProgress.mk (Progress.from_defaults (some 0) (some 0) none none)
        (Progress.from_defaults (some 0) none none (some 0))
        (Progress.from_defaults (some 0) (some 0) none (some 0))).optimizer_steps =
      Except.ok none ∧
    Except.ok (none : Option Int) ≠ (Except.error "x" : Except String (Option Int)) := by
  exact ⟨rfl, rfl, by simp⟩

/-- C4 amended: `optimizer_steps` and `scheduler_steps` always succeed and
return the raw stored value of the corresponding `total.completed` field —
`some n` when the counter is enabled and holds `n`, and the `None` sentinel
(not an error) when `completed` is disabled; after `k` completed-increments
on the default optimizer `Progress` the reported step count is `k`. -/
theorem steps_properties_return_raw_value (o : OptimizationProgress) (n : Int)
    (k : Nat) :
    o.optimizer_steps = Except.ok o.optimizer.total.completed ∧
    o.scheduler_steps = Except.ok o.scheduler.total.completed ∧
    (o.optimizer.total.completed = some n →
      o.optimizer_steps = Except.ok (some n)) ∧
    (o.scheduler.total.completed = some n →
      o.scheduler_steps = Except.ok (some n)) ∧
    (OptimizationProgress.mk
        ((fun q => Progress.increment q TrackerField.completed)^[k]
          OptimizationProgress.default.optimizer)
        o.scheduler o.zero_grad).optimizer_steps = Except.ok (some (k : Int)) := by
  refine ⟨rfl, rfl, ?_, ?_, ?_⟩
  · intro h
    simp [OptimizationProgress.optimizer_steps, h]
  · intro h
    simp [OptimizationProgress.scheduler_steps, h]
  · have h := Progress.increment_iterate TrackerField.completed k
      OptimizationProgress.default.optimizer 0 0 rfl rfl
    have h2 : ((fun q => Progress.increment q TrackerField.completed)^[k]
        OptimizationProgress.default.optimizer).total.completed =
        some ((0 : Int) + k) := h.1
    simp [OptimizationProgress.optimizer_steps, h2]

/-- Witness for C4 amended at a concrete input: the default
`OptimizationProgress` reports zero optimizer steps without error. -/
theorem steps_properties_return_raw_value_witness :
    OptimizationProgress.default.optimizer_steps = Except.ok (some 0) :=
  (steps_properties_return_raw_value OptimizationProgress.default 0 0).2.2.1 rfl

/-- C5: on a `TrainingLoopProgress` with `completed` enabled on both epoch
trackers, `increment_epoch_completed` bumps `epoch.completed` on `total` and
`current` by one, changes no other epoch field (`epoch.current` is not
reset), resets the enabled current counters of the batch loop `batch` and of
every optimization slot while preserving all their `total` trackers, and
leaves the inherited `batch` `Progress` untouched; on the base (validation)
`LoopProgress`, the same call instead resets both `batch.current` and
`epoch.current`. -/
theorem training_increment_epoch_completed_correct (t : TrainingLoopProgress)
    (a b : Int) (ha : t.epoch.total.completed = some a)
    (hb : t.epoch.current.completed = some b) :
    (t.increment_epoch_completed.epoch.total.completed = some (a + 1) ∧
      t.increment_epoch_completed.epoch.current.completed = some (b + 1) ∧
      (∀ g, g ≠ TrackerField.completed →
        t.increment_epoch_completed.epoch.total.get g = t.epoch.total.get g ∧
        t.increment_epoch_completed.epoch.current.get g = t.epoch.current.get g) ∧
      t.increment_epoch_completed.batch = t.batch ∧
      t.increment_epoch_completed.batch_loop.batch.total = t.batch_loop.batch.total ∧
      t.increment_epoch_completed.batch_loop.batch.current =
        t.batch_loop.batch.current.reset ∧
      t.increment_epoch_completed.batch_loop.optimizer_idx =
        t.batch_loop.optimizer_idx ∧
      List.Forall₂ slotResetSpec t.batch_loop.optimizations
        t.increment_epoch_completed.batch_loop.optimizations) ∧
    (∀ (l : LoopProgress) (c d : Int),
      l.epoch.total.completed = some c →
      l.epoch.current.completed = some d →
      l.increment_epoch_completed.epoch.total.completed = some (c + 1) ∧
      l.increment_epoch_completed.epoch.current = l.epoch.current.reset ∧
      l.increment_epoch_completed.epoch.current.completed = some 0 ∧
      l.increment_epoch_completed.batch.current = l.batch.current.reset ∧
      l.increment_epoch_completed.batch.total = l.batch.total) := by
  constructor
  · refine ⟨?_, ?_, ?_, rfl, rfl, rfl, rfl, ?_⟩
    · simp [TrainingLoopProgress.increment_epoch_completed,
        TrainingLoopProgress.reset_on_epoch, Progress.increment_completed, ha, hb]
    · simp [TrainingLoopProgress.increment_epoch_completed,
        TrainingLoopProgress.reset_on_epoch, Progress.increment_completed, ha, hb]
    · intro g hg
      cases g <;> simp_all [TrainingLoopProgress.increment_epoch_completed,
        TrainingLoopProgress.reset_on_epoch, Progress.increment_completed,
        Tracker.get]
    · exact forall2_map_self OptimizationProgress.reset_current
        slotResetSpec_reset_current t.batch_loop.optimizations
  · intro l c d hc hd
    refine ⟨?_, ?_, ?_, rfl, rfl⟩
    · simp [LoopProgress.increment_epoch_completed, LoopProgress.reset_on_epoch,
        Progress.increment_completed, hc, hd]
    · simp [LoopProgress.increment_epoch_completed, LoopProgress.reset_on_epoch,
        Progress.increment_completed, Tracker.reset, hc, hd]
    · simp [LoopProgress.increment_epoch_completed, LoopProgress.reset_on_epoch,
        Progress.increment_completed, Tracker.reset, hc, hd]

/-- Witness for C5 at a concrete input: one `increment_epoch_completed` on
the default `TrainingLoopProgress` brings `epoch.total.completed` and
`epoch.current.completed` to 1 (the override does not reset
`epoch.current`), and on the default `LoopProgress` it resets
`epoch.current.completed` back to 0. -/
theorem training_increment_epoch_completed_correct_witness :
    TrainingLoopProgress.default.increment_epoch_completed.epoch.total.completed =
      some 1 ∧
    TrainingLoopProgress.default.increment_epoch_completed.epoch.current.completed =
      some 1 ∧
    LoopProgress.default.increment_epoch_completed.epoch.current.completed =
      some 0 := by
  have h := training_increment_epoch_completed_correct
    TrainingLoopProgress.default 0 0 rfl rfl
  refine ⟨by simpa using h.1.1, by simpa using h.1.2.1, ?_⟩
  exact (h.2 LoopProgress.default 0 0 rfl rfl).2.2.1

/-- Counterexample to C6: `TrainingLoopProgress.reset_on_batch` does not
reset any `batch.current` — on a state with `batch_loop.batch.current.ready = 5`
and inherited `batch.current.ready = 7` (both enabled), both values survive
the call unchanged instead of being reset to 0. -/
theorem training_reset_on_batch_counterexample :
    (TrainingLoopProgress.mk Progress.default
        (Progress.mk Tracker.default (Tracker.mk (some 7) (some 0) (some 0) (some 0)))
        (BatchLoopProgress.mk
          (Progress.mk Tracker.default (Tracker.mk (some 5) (some 0) (some 0) (some 0)))
          (some 0) 1 [OptimizationProgress.default])).reset_on_batch.batch_loop.batch.current.ready =
      some 5 ∧
    (TrainingLoopProgress.mk Progress.default
        (Progress.mk Tracker.default (Tracker.mk (some 7) (some 0) (some 0) (some 0)))
        (BatchLoopProgress.mk
          (Progress.mk Tracker.default (Tracker.mk (some 5) (some 0) (some 0) (some 0)))
          (some 0) 1 [OptimizationProgress.default])).reset_on_batch.batch.current.ready =
      some 7 ∧
    (some 5 : Option Int) ≠ some 0 ∧ (some 7 : Option Int) ≠ some 0 := by
  exact ⟨rfl, rfl, by simp, by simp⟩

/-- C6 amended: `TrainingLoopProgress.reset_on_batch` resets the enabled
current counters of `optimizer`, `scheduler` and `zero_grad` on every
optimization slot, leaving all `total` trackers, the epoch counters and
every `batch` `Progress` (both the inherited one and `batch_loop.batch`)
unchanged; it is `BatchLoopProgress.reset_on_batch` that additionally resets
its own `batch.current` (its `batch.total` stays unchanged). -/
theorem reset_on_batch_correct (t : TrainingLoopProgress) (b : BatchLoopProgress) :
    (t.reset_on_batch.epoch = t.epoch ∧
      t.reset_on_batch.batch = t.batch ∧
      t.reset_on_batch.batch_loop.batch = t.batch_loop.batch ∧
      t.reset_on_batch.batch_loop.optimizer_idx = t.batch_loop.optimizer_idx ∧
      List.Forall₂ slotResetSpec t.batch_loop.optimizations
        t.reset_on_batch.batch_loop.optimizations) ∧
    (b.reset_on_batch.batch.total = b.batch.total ∧
      b.reset_on_batch.batch.current = b.batch.current.reset ∧
      b.reset_on_batch.optimizer_idx = b.optimizer_idx ∧
      List.Forall₂ slotResetSpec b.optimizations b.reset_on_batch.optimizations) :=
  ⟨⟨rfl, rfl, rfl, rfl,
      forall2_map_self OptimizationProgress.reset_current
        slotResetSpec_reset_current t.batch_loop.optimizations⟩,
    ⟨rfl, rfl, rfl,
      forall2_map_self OptimizationProgress.reset_current
        slotResetSpec_reset_current b.optimizations⟩⟩

/-- The reset loop body changes no `total` tracker of any slot. -/
theorem map_totals_reset_current (l : List OptimizationProgress) :
    (l.map OptimizationProgress.reset_current).map
      (fun o => (o.optimizer.total, o.scheduler.total, o.zero_grad.total)) =
      l.map (fun o => (o.optimizer.total, o.scheduler.total, o.zero_grad.total)) := by
  induction l with
  | nil => rfl
  | cons a as ih =>
      simp only [List.map_cons]
      rw [ih]
      rfl

/-- C7: along any sequence of public operations from any starting state,
every enabled counter of every `total` tracker is non-decreasing (a disabled
one stays disabled), and the four reset operations leave all `total`
trackers exactly unchanged. -/
theorem totals_monotone :
    (∀ (s : FitLoopProgress) (ops : List FitOp), totalsLE s (s.run ops)) ∧
    (∀ s : FitLoopProgress,
      (s.applyOp FitOp.trainResetOnEpoch).totals = s.totals ∧
      (s.applyOp FitOp.trainResetOnBatch).totals = s.totals ∧
      (s.applyOp FitOp.batchLoopResetOnBatch).totals = s.totals ∧
      (s.applyOp FitOp.valResetOnEpoch).totals = s.totals) := by
  constructor
  · intro s ops
    induction ops generalizing s with
    | nil => exact totalsLE_refl s
    | cons op ops ih =>
        exact totalsLE_trans (applyOp_totalsLE s op) (ih (s.applyOp op))
  · intro s
    refine ⟨?_, ?_, ?_, ?_⟩
    · simp only [FitLoopProgress.totals, FitLoopProgress.applyOp,
        TrainingLoopProgress.reset_on_epoch, BatchLoopProgress.reset_on_batch]
      rw [map_totals_reset_current]
    · simp only [FitLoopProgress.totals, FitLoopProgress.applyOp,
        TrainingLoopProgress.reset_on_batch]
      rw [map_totals_reset_current]
    · simp only [FitLoopProgress.totals, FitLoopProgress.applyOp,
        BatchLoopProgress.reset_on_batch]
      rw [map_totals_reset_current]
    · rfl

/-- C8: `BatchLoopProgress` built with `num_optimizers = n` has exactly `n`
optimization slots, each initially the default `OptimizationProgress`
(whose `optimizer` and `zero_grad` disable `processed` and whose `scheduler`
disables `started` and `processed` on both trackers), and mutating slot `i`
leaves every slot `j ≠ i` — and the rest of the structure — unchanged. -/
theorem batch_loop_slots_independent (n : Nat) :
    (BatchLoopProgress.mkNew Progress.default (some 0) n).optimizations.length = n ∧
    (∀ o ∈ (BatchLoopProgress.mkNew Progress.default (some 0) n).optimizations,
      o = OptimizationProgress.default) ∧
    OptimizationProgress.default.optimizer.total.processed = none ∧
    OptimizationProgress.default.optimizer.current.processed = none ∧
    OptimizationProgress.default.zero_grad.total.processed = none ∧
    OptimizationProgress.default.zero_grad.current.processed = none ∧
    OptimizationProgress.default.scheduler.total.started = none ∧
    OptimizationProgress.default.scheduler.total.processed = none ∧
    OptimizationProgress.default.scheduler.current.started = none ∧
    OptimizationProgress.default.scheduler.current.processed = none ∧
    (∀ (b : BatchLoopProgress) (i j : Nat)
        (g : OptimizationProgress → OptimizationProgress), j ≠ i →
      (∀ d, (b.mutateSlot i g).optimizations.getD j d = b.optimizations.getD j d) ∧
      (b.mutateSlot i g).batch = b.batch ∧
      (b.mutateSlot i g).optimizer_idx = b.optimizer_idx ∧
      (b.mutateSlot i g).optimizations.length = b.optimizations.length) := by
  refine ⟨by simp [BatchLoopProgress.mkNew], ?_, rfl, rfl, rfl, rfl, rfl, rfl,
    rfl, rfl, ?_⟩
  · intro o ho
    exact List.eq_of_mem_replicate ho
  · intro b i j g hji
    refine ⟨fun d => updateNth_getD_ne g i j b.optimizations d hji, rfl, rfl, ?_⟩
    exact updateNth_length g i b.optimizations

/-- Witness for C8 at a concrete input: with two slots, mutating slot 0 by an
optimizer increment leaves slot 1 unchanged. -/
theorem batch_loop_slots_independent_witness :
    ((BatchLoopProgress.mkNew Progress.default (some 0) 2).mutateSlot 0
        (fun o => { o with optimizer := o.optimizer.increment_ready })).optimizations.getD
        1 OptimizationProgress.default =
      (BatchLoopProgress.mkNew Progress.default (some 0) 2).optimizations.getD 1
        OptimizationProgress.default := by
  obtain ⟨-, -, -, -, -, -, -, -, -, -, hmut⟩ := batch_loop_slots_independent 2
  exact (hmut (BatchLoopProgress.mkNew Progress.default (some 0) 2) 0 1
    (fun o => { o with optimizer := o.optimizer.increment_ready })
    (by decide)).1 OptimizationProgress.default

/-- C9: the unwrappers strip the known distributed wrapper layers in order —
`unwrap_lightning_module_sharded` removes a sharded-data-parallel layer,
`unwrap_lightning_module_full_sharded` removes a fully-sharded layer and
then, independently, a flattened-parameters layer — and both return a plain
model unchanged. -/
theorem unwrap_removes_wrapper_layers (m : ModelObj) :
    unwrap_lightning_module_sharded (ModelObj.sharded m) =
      unwrap_lightning_module m ∧
    unwrap_lightning_module_full_sharded (ModelObj.fullSharded (ModelObj.flatten m)) =
      unwrap_lightning_module m ∧
    unwrap_lightning_module_full_sharded (ModelObj.fullSharded m) =
      unwrap_lightning_module
        (match m with
         | ModelObj.flatten inner => inner
         | mm => mm) ∧
    unwrap_lightning_module_full_sharded (ModelObj.flatten m) =
      unwrap_lightning_module m ∧
    (∀ u : Nat,
      unwrap_lightning_module_sharded (ModelObj.plain u) = ModelObj.plain u ∧
      unwrap_lightning_module_full_sharded (ModelObj.plain u) = ModelObj.plain u ∧
      unwrap_lightning_module (ModelObj.plain u) = ModelObj.plain u) := by
  refine ⟨rfl, rfl, ?_, ?_, fun u => ⟨rfl, rfl, rfl⟩⟩
  · cases m <;> rfl
  · cases m <;> rfl

/-- C10: the write guard of `Tracker.__setattr__` rejects a write exactly
when the attribute currently reads as the `None` sentinel; hence writing
`None` to a currently enabled attribute succeeds and disables it (all later
writes to it fail), and writing to an attribute name that does not yet exist
on the instance succeeds. -/
theorem pytracker_setattr_guard_iff (t : PyTracker) (key : String) (v : PyVal) :
    ((∃ e, t.setattr key v = Except.error e) ↔
      t.getattr key (PyVal.int 0) = PyVal.pynone) ∧
    (t.getattr key (PyVal.int 0) ≠ PyVal.pynone →
      t.setattr key PyVal.pynone =
        Except.ok (PyTracker.mk ((key, PyVal.pynone) :: t.attrs)) ∧
      (PyTracker.mk ((key, PyVal.pynone) :: t.attrs)).getattr key (PyVal.int 0) =
        PyVal.pynone ∧
      (∀ w, (PyTracker.mk ((key, PyVal.pynone) :: t.attrs)).setattr key w =
        Except.error ("The " ++ key ++ " attribute is meant to be unused"))) ∧
    (t.attrs.lookup key = none →
      t.setattr key v = Except.ok (PyTracker.mk ((key, v) :: t.attrs))) := by
  refine ⟨?_, ?_, ?_⟩
  · by_cases h : t.getattr key (PyVal.int 0) = PyVal.pynone <;>
      simp [PyTracker.setattr, h]
  · intro h
    refine ⟨by simp [PyTracker.setattr, h], ?_, ?_⟩
    · simp [PyTracker.getattr, List.lookup]
    · intro w
      simp [PyTracker.setattr, PyTracker.getattr, List.lookup]
  · intro h
    have hget : t.getattr key (PyVal.int 0) = PyVal.int 0 := by
      simp [PyTracker.getattr, h]
    simp [PyTracker.setattr, hget]

/-- Witness for C10 at a concrete input: on an instance with `ready = 0`,
writing `None` to `ready` succeeds (disabling it), and writing to the
not-yet-existing attribute name `extra` succeeds. -/
theorem pytracker_setattr_guard_iff_witness :
    (PyTracker.mk [("ready", PyVal.int 0)]).setattr "ready" PyVal.pynone =
      Except.ok (PyTracker.mk [("ready", PyVal.pynone), ("ready", PyVal.int 0)]) ∧
    (PyTracker.mk [("ready", PyVal.int 0)]).setattr "extra" (PyVal.int 10) =
      Except.ok (PyTracker.mk [("extra", PyVal.int 10), ("ready", PyVal.int 0)]) := by
  constructor
  · exact ((pytracker_setattr_guard_iff (PyTracker.mk [("ready", PyVal.int 0)])
      "ready" PyVal.pynone).2.1 (by decide)).1
  · exact (pytracker_setattr_guard_iff (PyTracker.mk [("ready", PyVal.int 0)])
      "extra" (PyVal.int 10)).2.2 (by decide)
